import Mathlib

/-!
Verification of the interaction data model and player of
`interactive-actions` (`src/interactive-actions/src/data.rs`).

The core under verification is `Interaction::play` together with its
helpers `update_varbag`, `to_default_answer` and `to_question`.  The
prompt-rendering collaborator (the `requestty` prompt module driven either
by a live terminal or by a scripted event queue) is external to the
repository; it is abstracted here as a `Driver` function, and the one
piece of its behaviour the player relies on — a pre-answered question is
skipped unless it was marked ask-if-answered — is modelled from the spec.
-/

set_option autoImplicit false

namespace InteractiveActions

/-- `VarBag = BTreeMap<String, String>`: modelled as an association list
kept sorted by key, so that equal contents give equal lists. -/
abbrev VarBag := List (String × String)

/-- Lexicographic order on lists of characters (by code point), used as
the `BTreeMap` key order. -/
def charListLt : List Char → List Char → Bool
  | _, [] => false
  | [], _ :: _ => true
  | c :: cs, d :: ds =>
    if c.toNat < d.toNat then true
    else if d.toNat < c.toNat then false
    else charListLt cs ds

/-- Lexicographic order on strings (the `BTreeMap<String, _>` key
order). -/
def strLtB (a b : String) : Bool :=
  charListLt a.data b.data

/-- `BTreeMap::insert`: insert or overwrite the value at a key, keeping
the list sorted by key. -/
def insertVB (k v : String) : VarBag → VarBag
  | [] => [(k, v)]
  | (k2, v2) :: rest =>
    if strLtB k k2 then (k, v) :: (k2, v2) :: rest
    else if k = k2 then (k, v) :: rest
    else (k2, v2) :: insertVB k v rest

/-- `BTreeMap::get`: look a key up. -/
def findVB (k : String) : VarBag → Option String
  | [] => none
  | (k2, v2) :: rest => if k = k2 then some v2 else findVB k rest

/-- `InteractionKind` from data.rs. -/
inductive InteractionKind
  | Confirm
  | Input
  | Select
deriving DecidableEq

/-- `Response` from data.rs. -/
inductive Response
  | Text (s : String)
  | Cancel
  | None
deriving DecidableEq

/-- `DefaultValue` from data.rs: shape-discriminated default of an
interaction. -/
inductive DefaultValue
  | Input (s : String)
  | Select (index : Nat)
  | Confirm (b : Bool)
deriving DecidableEq

/-- `Interaction` from data.rs. -/
structure Interaction where
  kind : InteractionKind
  prompt : String
  out : Option String
  options : Option (List String)
  default_value : Option DefaultValue
  ask_if_has_default : Option Bool
deriving DecidableEq

/-- `requestty::Answer`, restricted to the variants the player can meet:
strings, list items, booleans, and (standing for every remaining shape,
such as ints or floats) `Int`.  All shapes beyond the first three fall
into the player's catch-all branch identically. -/
inductive Answer
  | String (s : String)
  | ListItem (index : Nat) (text : String)
  | Bool (b : Bool)
  | Int (i : Int)
deriving DecidableEq

/-- The question built by `Interaction::to_question`: a requestty
input/select/confirm question named `"question"`, carrying the message,
the choices (select only) and the ask-if-answered flag. -/
inductive QuestionSpec
  | Input (name message : String) (askIfAnswered : Bool)
  | Select (name message : String) (choices : List String) (askIfAnswered : Bool)
  | Confirm (name message : String) (askIfAnswered : Bool)
deriving DecidableEq

/-- Whether the question is marked ask-if-answered. -/
def QuestionSpec.askIfAnswered : QuestionSpec → Bool
  | QuestionSpec.Input _ _ a => a
  | QuestionSpec.Select _ _ _ a => a
  | QuestionSpec.Confirm _ _ a => a

/-- The choices the question offers (select questions only). -/
def QuestionSpec.choices : QuestionSpec → List String
  | QuestionSpec.Select _ _ cs _ => cs
  | _ => []

/-- An error of the underlying prompt session (terminal I/O failure, or
exhaustion/mismatch of the scripted event source). -/
inductive SessionError
  | failure
deriving DecidableEq

/-- A scripted key event (`requestty_ui::events::KeyEvent`); only its
identity matters here. -/
structure KeyEvent where
  code : Nat
deriving DecidableEq

/-- The prompting collaborator for a question that is actually asked:
from the question and the scripted events it produces the raw answer
(`none` when the prompt ended with no answer) and the events left over,
or fails with a session error.  The claims quantify over all drivers. -/
abbrev Driver :=
  QuestionSpec → List KeyEvent → Except SessionError (Option Answer × List KeyEvent)

/-- Modelled from the spec: the behaviour of `requestty::PromptModule`
(external to the repository) that `play` relies on — a question whose
answer was pre-supplied via `with_answers` is skipped (its pre-answer
stands and no events are consumed) unless it is marked ask-if-answered;
otherwise the prompt is driven and its outcome is the answer. -/
def runPromptModule (driver : Driver) (q : QuestionSpec) (pre : Option Answer)
    (events : List KeyEvent) : Except SessionError (Option Answer × List KeyEvent) :=
  if pre.isSome && !q.askIfAnswered then Except.ok (pre, events)
  else driver q events

/-- `Interaction::update_varbag`: when a bag was supplied and `out` is
set, insert the captured value under the `out` key; the mutated bag is
returned. -/
def Interaction.update_varbag (it : Interaction) (input : String)
    (varbag : Option VarBag) : Option VarBag :=
  varbag.map (fun bag =>
    match it.out with
    | some out => insertVB out input bag
    | none => bag)

/-- `Interaction::to_default_answer`: build the library-level default
answer from `default_value`.  The `Select` arm indexes
`self.options.as_ref().unwrap()[*index]`, which panics when `options` is
absent or the index is out of range; the panic is modelled as the outer
`none` (so `some d` means the call returns the default `d`). -/
def Interaction.to_default_answer (it : Interaction) : Option (Option Answer) :=
  match it.default_value with
  | none => some none
  | some (DefaultValue.Input input) => some (some (Answer.String input))
  | some (DefaultValue.Select index) =>
    match it.options with
    | none => none
    | some opts =>
      match opts[index]? with
      | none => none
      | some text => some (some (Answer.ListItem index text))
  | some (DefaultValue.Confirm confirmed) => some (some (Answer.Bool confirmed))

/-- `Interaction::to_question`: build the question named `"question"`
for the interaction's kind; the builder's ask-if-answered flag (false by
default) is set only when `ask_if_has_default` holds `true`; a select
question's choices are `options` or the empty vector. -/
def Interaction.to_question (it : Interaction) : QuestionSpec :=
  match it.kind with
  | InteractionKind.Input =>
    QuestionSpec.Input "question" it.prompt
      (match it.ask_if_has_default with
       | some ask => if ask then ask else false
       | none => false)
  | InteractionKind.Select =>
    QuestionSpec.Select "question" it.prompt (it.options.getD [])
      (match it.ask_if_has_default with
       | some ask => if ask then ask else false
       | none => false)
  | InteractionKind.Confirm =>
    QuestionSpec.Confirm "question" it.prompt
      (match it.ask_if_has_default with
       | some ask => if ask then ask else false
       | none => false)

/-- The `match answer` at the end of `Interaction::play`: normalize the
raw answer into a `Response` and update the bag.  A string answer and a
list item give `Text` (updating the bag); a `true` confirmation gives
`Text "true"` (updating the bag); no answer, a `false` confirmation and
every unsupported shape give `Cancel` (bag untouched). -/
def normalize_answer (it : Interaction) (varbag : Option VarBag)
    (answer : Option Answer) : Response × Option VarBag :=
  match answer with
  | some (Answer.String input) =>
    (Response.Text input, it.update_varbag input varbag)
  | some (Answer.ListItem _ text) =>
    (Response.Text text, it.update_varbag text varbag)
  | some (Answer.Bool true) =>
    (Response.Text "true", it.update_varbag "true" varbag)
  | none => (Response.Cancel, varbag)
  | _ => (Response.Cancel, varbag)

/-- `Interaction::play`: build the question, resolve the default answer
(`none` models the panic inside `to_default_answer`), run the prompt
module (propagating its error), and normalize the resulting answer.  The
returned triple is the `Response`, the bag after the call, and the
scripted events left unconsumed. -/
def Interaction.play (it : Interaction) (varbag : Option VarBag) (driver : Driver)
    (events : List KeyEvent) :
    Option (Except SessionError (Response × Option VarBag × List KeyEvent)) :=
  match it.to_default_answer with
  | none => none
  | some pre =>
    match runPromptModule driver it.to_question pre events with
    | Except.error e => some (Except.error e)
    | Except.ok (answer, rest) =>
      let p := normalize_answer it varbag answer
      some (Except.ok (p.1, p.2, rest))

/-- A driver that yields a fixed raw answer and consumes no events. -/
def driverOf (a : Option Answer) : Driver :=
  fun _ events => Except.ok (a, events)

/-- Sample free-text interaction capturing into variable `name`. -/
def itInput : Interaction :=
  { kind := InteractionKind.Input, prompt := "Name?", out := some "name",
    options := none, default_value := none, ask_if_has_default := none }

/-- Sample confirmation interaction capturing into variable `ok`. -/
def itConfirm : Interaction :=
  { kind := InteractionKind.Confirm, prompt := "Sure?", out := some "ok",
    options := none, default_value := none, ask_if_has_default := none }

/-- Sample selection interaction over three options. -/
def itSelect : Interaction :=
  { kind := InteractionKind.Select, prompt := "Pick", out := none,
    options := some ["a", "b", "c"], default_value := none,
    ask_if_has_default := none }

/-- Sample selection interaction with a valid `Select 1` default. -/
def itSelectDef : Interaction :=
  { kind := InteractionKind.Select, prompt := "Pick", out := none,
    options := some ["a", "b", "c"],
    default_value := some (DefaultValue.Select 1), ask_if_has_default := none }

/-- The spec's end-to-end scenario: select over `x`/`y` with default index
0 and ask-if-has-default `false`. -/
def selectWithDefault : Interaction :=
  { kind := InteractionKind.Select, prompt := "Pick", out := none,
    options := some ["x", "y"], default_value := some (DefaultValue.Select 0),
    ask_if_has_default := some false }

theorem update_varbag_out_none (it : Interaction) (input : String)
    (varbag : Option VarBag) (h : it.out = none) :
    it.update_varbag input varbag = varbag := by
  cases varbag <;> simp [Interaction.update_varbag, h]

theorem update_varbag_out_some (it : Interaction) (input v : String)
    (bag : VarBag) (h : it.out = some v) :
    it.update_varbag input (some bag) = some (insertVB v input bag) := by
  simp [Interaction.update_varbag, h]

theorem normalize_answer_cases (it : Interaction) (varbag : Option VarBag)
    (answer : Option Answer) :
    (∃ s, normalize_answer it varbag answer =
        (Response.Text s, it.update_varbag s varbag)) ∨
    normalize_answer it varbag answer = (Response.Cancel, varbag) := by
  rcases answer with _ | a
  · exact Or.inr rfl
  rcases a with s | ⟨i, t⟩ | b | i
  · exact Or.inl ⟨s, rfl⟩
  · exact Or.inl ⟨t, rfl⟩
  · cases b
    · exact Or.inr rfl
    · exact Or.inl ⟨"true", rfl⟩
  · exact Or.inr rfl

theorem play_session_ok (it : Interaction) (varbag : Option VarBag)
    (driver : Driver) (events rest : List KeyEvent) (pre : Option Answer)
    (answer : Option Answer)
    (hd : it.to_default_answer = some pre)
    (hs : runPromptModule driver it.to_question pre events = Except.ok (answer, rest)) :
    it.play varbag driver events =
      some (Except.ok ((normalize_answer it varbag answer).1,
        (normalize_answer it varbag answer).2, rest)) := by
  unfold Interaction.play
  rw [hd]
  simp only []
  rw [hs]

theorem play_ok_cases (it : Interaction) (varbag : Option VarBag)
    (driver : Driver) (events rest : List KeyEvent) (resp : Response)
    (bag2 : Option VarBag)
    (h : it.play varbag driver events = some (Except.ok (resp, bag2, rest))) :
    ∃ pre answer,
      it.to_default_answer = some pre ∧
      runPromptModule driver it.to_question pre events = Except.ok (answer, rest) ∧
      normalize_answer it varbag answer = (resp, bag2) := by
  unfold Interaction.play at h
  cases hd : it.to_default_answer with
  | none => rw [hd] at h; exact absurd h (by simp)
  | some pre =>
    rw [hd] at h
    simp only [] at h
    cases hs : runPromptModule driver it.to_question pre events with
    | error e => rw [hs] at h; simp at h
    | ok pr =>
      obtain ⟨answer, rest2⟩ := pr
      rw [hs] at h
      simp only [Option.some.injEq, Except.ok.injEq, Prod.mk.injEq] at h
      obtain ⟨h1, h2, h3⟩ := h
      subst h3
      exact ⟨pre, answer, rfl, hs, Prod.ext h1 h2⟩

theorem findVB_insertVB_self (k v : String) (bag : VarBag) :
    findVB k (insertVB k v bag) = some v := by
  induction bag with
  | nil => simp [insertVB, findVB]
  | cons hd tl ih =>
    obtain ⟨k2, v2⟩ := hd
    by_cases h1 : strLtB k k2 = true
    · simp [insertVB, findVB, h1]
    · by_cases h2 : k = k2
      · subst h2
        simp [insertVB, findVB, h1]
      · simp [insertVB, findVB, h1, h2, ih]

theorem findVB_insertVB_ne (k k2 v : String) (bag : VarBag) (h : k ≠ k2) :
    findVB k (insertVB k2 v bag) = findVB k bag := by
  induction bag with
  | nil => simp [insertVB, findVB, h]
  | cons hd tl ih =>
    obtain ⟨k3, v3⟩ := hd
    by_cases h1 : strLtB k2 k3 = true
    · simp [insertVB, findVB, h1, h]
    · by_cases h2 : k2 = k3
      · subst h2
        simp [insertVB, findVB, h1, h, Ne.symm h]
      · simp [insertVB, findVB, h1, h2, ih]

/-- C1: when the completed prompt session yields a free-text string `s`,
a selected list item with label `s`, or a `true` confirmation (with
`s = "true"`), `play` returns `Response.Text s` and applies
`update_varbag`; when `out = some v` and a bag was supplied, the bag
afterwards maps `v` to that same string. -/
theorem play_normalizes_answers (it : Interaction) (varbag : Option VarBag)
    (driver : Driver) (events rest : List KeyEvent) (pre : Option Answer)
    (a : Answer) (s : String)
    (hd : it.to_default_answer = some pre)
    (hs : runPromptModule driver it.to_question pre events = Except.ok (some a, rest))
    (ha : a = Answer.String s ∨ (∃ i, a = Answer.ListItem i s) ∨
      (a = Answer.Bool true ∧ s = "true")) :
    it.play varbag driver events =
      some (Except.ok (Response.Text s, it.update_varbag s varbag, rest)) ∧
    (∀ v bag, it.out = some v → varbag = some bag →
      it.update_varbag s varbag = some (insertVB v s bag) ∧
      findVB v (insertVB v s bag) = some s) := by
  constructor
  · have h := play_session_ok it varbag driver events rest pre (some a) hd hs
    rcases ha with h1 | ⟨i, h1⟩ | ⟨h1, h2⟩
    · subst h1; exact h
    · subst h1; exact h
    · subst h1; subst h2; exact h
  · intro v bag hv hb
    subst hb
    exact ⟨update_varbag_out_some it s v bag hv, findVB_insertVB_self v s bag⟩

theorem play_normalizes_answers_wit :
    itInput.play (some []) (driverOf (some (Answer.String "Ada"))) [] =
      some (Except.ok (Response.Text "Ada",
        itInput.update_varbag "Ada" (some []), [])) ∧
    (∀ v bag, itInput.out = some v → (some [] : Option VarBag) = some bag →
      itInput.update_varbag "Ada" (some []) = some (insertVB v "Ada" bag) ∧
      findVB v (insertVB v "Ada" bag) = some "Ada") :=
  play_normalizes_answers itInput (some []) (driverOf (some (Answer.String "Ada")))
    [] [] none (Answer.String "Ada") "Ada" rfl rfl (Or.inl rfl)

/-- C2: for a `Confirm` interaction whose completed session yields a
boolean answer, `play` returns `Text "true"` (updating the bag) when the
answer is `true`, and `Response.Cancel` (the unsupported-answer branch,
bag untouched) when the answer is `false`. -/
theorem play_confirm_bool (it : Interaction) (varbag : Option VarBag)
    (driver : Driver) (events rest : List KeyEvent) (pre : Option Answer) (b : Bool)
    (_hk : it.kind = InteractionKind.Confirm)
    (hd : it.to_default_answer = some pre)
    (hs : runPromptModule driver it.to_question pre events =
      Except.ok (some (Answer.Bool b), rest)) :
    it.play varbag driver events =
      some (Except.ok (if b then
          (Response.Text "true", it.update_varbag "true" varbag, rest)
        else (Response.Cancel, varbag, rest))) := by
  have h := play_session_ok it varbag driver events rest pre (some (Answer.Bool b)) hd hs
  cases b
  · exact h
  · exact h

theorem play_confirm_bool_wit :
    itConfirm.play (some []) (driverOf (some (Answer.Bool false))) [] =
      some (Except.ok (if false then
          (Response.Text "true", itConfirm.update_varbag "true" (some []), [])
        else (Response.Cancel, some [], []))) :=
  play_confirm_bool itConfirm (some []) (driverOf (some (Answer.Bool false)))
    [] [] none false rfl rfl rfl

/-- C3: when `play` completes with response `resp` and bag `bag2`, the
bag is exactly `insertVB v s bag` when `out = some v` and
`resp = Text s`, and is unchanged when `out = none` or `resp = Cancel`;
any change implies `out` was set and the response was `Text`. -/
theorem play_varbag_mutation (it : Interaction) (bag : VarBag) (driver : Driver)
    (events rest : List KeyEvent) (resp : Response) (bagOut : Option VarBag)
    (h : it.play (some bag) driver events = some (Except.ok (resp, bagOut, rest))) :
    ∃ bag2, bagOut = some bag2 ∧
      (it.out = none → bag2 = bag) ∧
      (resp = Response.Cancel → bag2 = bag) ∧
      (∀ v s, it.out = some v → resp = Response.Text s → bag2 = insertVB v s bag) ∧
      (bag2 ≠ bag → ∃ v s, it.out = some v ∧ resp = Response.Text s) := by
  obtain ⟨pre, answer, hd, hs, hn⟩ :=
    play_ok_cases it (some bag) driver events rest resp bagOut h
  rcases normalize_answer_cases it (some bag) answer with ⟨s, he⟩ | he
  · rw [he] at hn
    simp only [Prod.mk.injEq] at hn
    obtain ⟨hr, hb⟩ := hn
    cases hout : it.out with
    | none =>
      rw [update_varbag_out_none it s (some bag) hout] at hb
      refine ⟨bag, hb.symm, fun _ => rfl, fun _ => rfl, ?_, fun hne => absurd rfl hne⟩
      intro v s2 hv _
      exact absurd hv (by simp)
    | some v =>
      rw [update_varbag_out_some it s v bag hout] at hb
      refine ⟨insertVB v s bag, hb.symm, ?_, ?_, ?_, ?_⟩
      · intro h2; exact absurd h2 (by simp)
      · intro h2; rw [← hr] at h2; exact absurd h2 (by simp)
      · intro v2 s2 hv2 hr2
        rw [← hr] at hr2
        obtain h3 := Option.some.inj hv2
        obtain h4 := (Response.Text.injEq ..).mp hr2
        rw [← h3, ← h4]
      · intro _
        exact ⟨v, s, rfl, hr.symm⟩
  · rw [he] at hn
    simp only [Prod.mk.injEq] at hn
    obtain ⟨hr, hb⟩ := hn
    refine ⟨bag, hb.symm, fun _ => rfl, fun _ => rfl, ?_, fun hne => absurd rfl hne⟩
    intro v s2 _ hr2
    rw [← hr] at hr2
    exact absurd hr2 (by simp)

theorem play_varbag_mutation_wit :
    ∃ bag2, (some [("name", "Ada")] : Option VarBag) = some bag2 ∧
      (itInput.out = none → bag2 = []) ∧
      (Response.Text "Ada" = Response.Cancel → bag2 = []) ∧
      (∀ v s, itInput.out = some v → Response.Text "Ada" = Response.Text s →
        bag2 = insertVB v s []) ∧
      (bag2 ≠ [] → ∃ v s, itInput.out = some v ∧
        Response.Text "Ada" = Response.Text s) :=
  play_varbag_mutation itInput [] (driverOf (some (Answer.String "Ada"))) [] []
    (Response.Text "Ada") (some [("name", "Ada")]) rfl

/-- C4: resolving a `Select i` default panics (modelled as `none`)
exactly when `options` is absent or `i` is out of range, and under the
precondition that `opts[i]?` yields a label `t`, resolution succeeds and
produces the list item with text `t` and index `i`. -/
theorem to_default_answer_select (it : Interaction) (i : Nat)
    (hdv : it.default_value = some (DefaultValue.Select i)) :
    (it.to_default_answer = none ↔
      (it.options = none ∨ ∃ opts, it.options = some opts ∧ opts.length ≤ i)) ∧
    (∀ opts t, it.options = some opts → opts[i]? = some t →
      it.to_default_answer = some (some (Answer.ListItem i t))) := by
  constructor
  · unfold Interaction.to_default_answer
    rw [hdv]
    simp only []
    cases ho : it.options with
    | none => simp
    | some opts =>
      simp only []
      cases hg : opts[i]? with
      | none =>
        simp only []
        constructor
        · intro _
          exact Or.inr ⟨opts, rfl, List.getElem?_eq_none_iff.mp hg⟩
        · intro _
          trivial
      | some t =>
        simp only []
        constructor
        · intro h2
          exact absurd h2 (by simp)
        · rintro (h2 | ⟨opts2, h2, h3⟩)
          · exact absurd h2 (by simp)
          · obtain h4 := Option.some.inj h2
            rw [← h4] at h3
            have h5 := (List.getElem?_eq_some_iff.mp hg).1
            exact absurd h3 (by omega)
  · intro opts t ho hg
    unfold Interaction.to_default_answer
    rw [hdv]
    simp only []
    rw [ho]
    simp only []
    rw [hg]

theorem to_default_answer_select_wit :
    (itSelectDef.to_default_answer = none ↔
      (itSelectDef.options = none ∨
        ∃ opts, itSelectDef.options = some opts ∧ opts.length ≤ 1)) ∧
    (∀ opts t, itSelectDef.options = some opts → opts[1]? = some t →
      itSelectDef.to_default_answer = some (some (Answer.ListItem 1 t))) :=
  to_default_answer_select itSelectDef 1 rfl

/-- C5: whenever `play` returns a value, that value is either a session
error or `Ok` of a `Text` or `Cancel` response — never
`Ok Response.None`; and a session error is propagated to the caller
unchanged. -/
theorem play_result_shape (it : Interaction) (varbag : Option VarBag)
    (driver : Driver) (events : List KeyEvent) :
    (∀ r, it.play varbag driver events = some r →
      (∃ e, r = Except.error e) ∨
      (∃ s bag2 rest, r = Except.ok (Response.Text s, bag2, rest)) ∨
      (∃ bag2 rest, r = Except.ok (Response.Cancel, bag2, rest))) ∧
    (∀ pre e, it.to_default_answer = some pre →
      runPromptModule driver it.to_question pre events = Except.error e →
      it.play varbag driver events = some (Except.error e)) := by
  constructor
  · intro r hr
    unfold Interaction.play at hr
    cases hd : it.to_default_answer with
    | none => rw [hd] at hr; simp at hr
    | some pre =>
      rw [hd] at hr
      simp only [] at hr
      cases hs : runPromptModule driver it.to_question pre events with
      | error e =>
        rw [hs] at hr
        exact Or.inl ⟨e, (Option.some.inj hr).symm⟩
      | ok pr =>
        obtain ⟨answer, rest⟩ := pr
        rw [hs] at hr
        obtain hr2 := (Option.some.inj hr).symm
        rcases normalize_answer_cases it varbag answer with ⟨s, he⟩ | he
        · refine Or.inr (Or.inl ⟨s, it.update_varbag s varbag, rest, ?_⟩)
          rw [hr2, he]
        · refine Or.inr (Or.inr ⟨varbag, rest, ?_⟩)
          rw [hr2, he]
  · intro pre e hd hs
    unfold Interaction.play
    rw [hd]
    simp only []
    rw [hs]

/-- C6: for every kind, the question built by `to_question` is marked
ask-if-answered exactly when `ask_if_has_default = some true`; with
`some false` the interaction produces the very same question as with
`none` (normal skip-when-answered behaviour). -/
theorem to_question_ask_if_has_default (it : Interaction) :
    ((it.to_question).askIfAnswered = true ↔ it.ask_if_has_default = some true) ∧
    Interaction.to_question { it with ask_if_has_default := some false } =
      Interaction.to_question { it with ask_if_has_default := none } := by
  constructor
  · cases hk : it.kind <;>
      simp only [Interaction.to_question, hk, QuestionSpec.askIfAnswered] <;>
      (cases ha : it.ask_if_has_default with
       | none => simp
       | some b => cases b <;> simp)
  · cases hk : it.kind <;> simp [Interaction.to_question, hk]

/-- C7: the spec's end-to-end scenario — a select over `x`/`y` with
default index 0 and ask-if-has-default `false` resolves to
`Text "x"` for every driver, consuming no scripted events and leaving
the bag untouched: the pre-answered question is skipped. -/
theorem play_skips_preanswered (varbag : Option VarBag) (driver : Driver)
    (events : List KeyEvent) :
    selectWithDefault.play varbag driver events =
      some (Except.ok (Response.Text "x", varbag, events)) := by
  cases varbag <;> rfl

/-- C8: a select question's choices are exactly `interaction.options`
in order, and the empty vector (not a failure) when `options` is
absent. -/
theorem to_question_select_choices (it : Interaction)
    (hk : it.kind = InteractionKind.Select) :
    (it.to_question).choices = it.options.getD [] ∧
    (∀ opts, it.options = some opts → (it.to_question).choices = opts) ∧
    (it.options = none → (it.to_question).choices = []) := by
  have h1 : (it.to_question).choices = it.options.getD [] := by
    simp [Interaction.to_question, hk, QuestionSpec.choices]
  refine ⟨h1, ?_, ?_⟩
  · intro opts ho
    rw [h1, ho]
    rfl
  · intro ho
    rw [h1, ho]
    rfl

theorem to_question_select_choices_wit :
    (itSelect.to_question).choices = itSelect.options.getD [] ∧
    (∀ opts, itSelect.options = some opts → (itSelect.to_question).choices = opts) ∧
    (itSelect.options = none → (itSelect.to_question).choices = []) :=
  to_question_select_choices itSelect rfl

/-- C9: `play` is deterministic — with identical interactions, drivers
and scripted events, two bags with identical contents produce identical
results (response, final bag and remaining events alike). -/
theorem play_deterministic (it : Interaction) (driver : Driver)
    (events : List KeyEvent) (bag1 bag2 : VarBag) (h : bag1 = bag2) :
    it.play (some bag1) driver events = it.play (some bag2) driver events := by
  rw [h]

theorem play_deterministic_wit :
    itInput.play (some [("a", "1")]) (driverOf (some (Answer.String "Ada"))) [] =
      itInput.play (some [("a", "1")]) (driverOf (some (Answer.String "Ada"))) [] :=
  play_deterministic itInput (driverOf (some (Answer.String "Ada"))) []
    [("a", "1")] [("a", "1")] rfl

/-- C10: frame property — when `out = some v` and `play` completes with
final bag `bag2`, every key other than `v` is looked up in `bag2` with
the same outcome as in the original bag: nothing besides the entry for
`v` is added, removed or changed. -/
theorem play_frame_other_keys (it : Interaction) (v : String) (bag : VarBag)
    (driver : Driver) (events rest : List KeyEvent) (resp : Response)
    (bag2 : VarBag)
    (hout : it.out = some v)
    (h : it.play (some bag) driver events = some (Except.ok (resp, some bag2, rest)))
    (k : String) (hk : k ≠ v) :
    findVB k bag2 = findVB k bag := by
  obtain ⟨pre, answer, hd, hs, hn⟩ :=
    play_ok_cases it (some bag) driver events rest resp (some bag2) h
  rcases normalize_answer_cases it (some bag) answer with ⟨s, he⟩ | he
  · rw [he] at hn
    simp only [Prod.mk.injEq] at hn
    obtain ⟨hr, hb⟩ := hn
    rw [update_varbag_out_some it s v bag hout] at hb
    rw [← Option.some.inj hb]
    exact findVB_insertVB_ne k v s bag hk
  · rw [he] at hn
    simp only [Prod.mk.injEq] at hn
    obtain ⟨hr, hb⟩ := hn
    rw [← Option.some.inj hb]

theorem play_frame_other_keys_wit :
    findVB "other" [("name", "Ada"), ("other", "1")] = findVB "other" [("other", "1")] :=
  play_frame_other_keys itInput "name" [("other", "1")]
    (driverOf (some (Answer.String "Ada"))) [] [] (Response.Text "Ada")
    [("name", "Ada"), ("other", "1")] rfl rfl "other" (by decide)

end InteractiveActions
